import Mathlib

/-!
# Verification of the CPL indirection type system (`cpl.hpp`, v0.0.15)

This file is a shallow embedding of the indirection types of the clever
protection library (`src/cpl.hpp`, the `CPL_VERSION "0.0.15"` copy, lines
1268-2451): the held-value wrapper `is`, the shared family
(`shared`/`sref`/`sptr`), the unique family (`unique`/`uref`/`uptr`), the
borrowing family (`borrow`/`ref`/`ptr`), and the four cast entry points
(`cast_static`, `cast_dynamic`, `cast_reinterpret`, `cast_const`).

The safe build (`CPL_SAFE`) tracks lifetimes through `std::shared_ptr`
control blocks observed by `std::weak_ptr`.  We model that machinery
explicitly:

* `Heap` is the store of control blocks; each block carries its strong
  reference count.  A block is alive while the count is positive.
* `SPtr` models a `std::shared_ptr<T>`: an optional control-block id plus
  the stored raw address (the aliasing constructor lets the two differ).
  `get()` returns the stored address; address `0` is the null pointer.
* `WPtr` models a `std::weak_ptr<T>`; `lock` succeeds exactly while the
  observed block's strong count is positive.

Pointer addresses are natural numbers with `0` for `nullptr`.  To give the
C++ pointer casts a concrete meaning we fix a two-class hierarchy as in the
repository's test suite: `Bar` derives (non-virtually) from `Foo`, and the
`Foo` base subobject of a `Bar` whose base address is `b` lives at address
`b + off` for a layout offset `off`.  `isBar a` is the layout oracle
answering whether address `a` is the base address of a complete `Bar`
object (with `isBar 0 = false` assumed where needed, since no object lives
at the null address).

`CPL_ASSERT` in the safe build throws `std::logic_error`; operations that
can assert are therefore modelled in `Except String`.  In the fast build
(`CPL_FAST`) `CPL_ASSERT` expands to nothing and `borrow` is a raw
pointer; the fast-mode definitions carry the `F` suffix, the safe-mode
definitions the `S` suffix.
-/

namespace Cpl

/-- The store of `std::shared_ptr` control blocks.  `blocks[i]` is the
strong reference count of block `i`; blocks are never removed, a block
whose count reached `0` is expired. -/
structure Heap where
  blocks : List Nat
deriving Repr, DecidableEq

/-- The empty store. -/
def Heap.empty : Heap := ⟨[]⟩

/-- Allocate a fresh control block with strong count `1`
(what `std::shared_ptr<T>(p)` and `std::shared_ptr<T>(p, deleter)` do,
also when `p` is null). -/
def Heap.alloc (h : Heap) : Heap × Nat :=
  (⟨h.blocks ++ [1]⟩, h.blocks.length)

/-- The strong count of a block (`0` for an unknown id). -/
def Heap.strong (h : Heap) (i : Nat) : Nat :=
  h.blocks.getD i 0

/-- A block is alive while its strong count is positive. -/
def Heap.aliveCB (h : Heap) (i : Nat) : Bool :=
  decide (0 < h.strong i)

/-- Increment a block's strong count (copying a `std::shared_ptr`). -/
def Heap.incr (h : Heap) (i : Nat) : Heap :=
  ⟨h.blocks.set i (h.strong i + 1)⟩

/-- Decrement a block's strong count (destroying a `std::shared_ptr`). -/
def Heap.release (h : Heap) (i : Nat) : Heap :=
  ⟨h.blocks.set i (h.strong i - 1)⟩

/-- A `std::shared_ptr<T>`: the owned control block (none for an empty
shared pointer) and the stored raw address returned by `get()`. -/
structure SPtr where
  cb : Option Nat
  addr : Nat
deriving Repr, DecidableEq

/-- The empty (default-constructed) `std::shared_ptr`. -/
def SPtr.null : SPtr := ⟨none, 0⟩

/-- `std::shared_ptr<T>::operator bool`: `get() != nullptr`. -/
def SPtr.toBool (s : SPtr) : Bool :=
  decide (s.addr ≠ 0)

/-- A `std::weak_ptr<T>`: the observed control block and the stored
address. -/
structure WPtr where
  cb : Option Nat
  addr : Nat
deriving Repr, DecidableEq

/-- `std::weak_ptr<T>(const std::shared_ptr<U>&)`: observe the same
control block and store the (already converted) address. -/
def WPtr.ofShared (s : SPtr) : WPtr := ⟨s.cb, s.addr⟩

/-- `std::weak_ptr<T>::lock()`: a shared pointer to the observed block
while it is alive, the empty shared pointer once it expired. -/
def WPtr.lock (h : Heap) (w : WPtr) : SPtr :=
  match w.cb with
  | some i => if h.aliveCB i then ⟨some i, w.addr⟩ else SPtr.null
  | none => SPtr.null

/-- The two C++ classes used by the repository's tests: `Bar` derives
non-virtually from `Foo`. -/
inductive Ty | foo | bar
deriving Repr, DecidableEq

/-- The four cast tags of the cast-primitive layer: `unsafe_raw_t`
(reinterpret), `unsafe_static_t`, `unsafe_dynamic_t`, `unsafe_const_t`. -/
inductive CKind | raw | stat | dyn | cst
deriving Repr, DecidableEq

/-- The address of the `Foo` base subobject of the object at `a`
(`static_cast<Fooptr>` upcast, also the implicit `Bar* -> Foo*`
conversion); null maps to null. -/
def upAddr (off a : Nat) : Nat :=
  if a = 0 then 0 else a + off

/-- `static_cast<Barptr>(Fooptr)` downcast: subtract the layout offset;
null maps to null. -/
def downStatic (off a : Nat) : Nat :=
  if a = 0 then 0 else a - off

/-- `dynamic_cast<Barptr>(Fooptr)` downcast: succeeds with the `Bar`
base address exactly when the `Foo` at `a` is the base subobject of a
complete `Bar`; otherwise null. -/
def downDyn (isBar : Nat → Bool) (off a : Nat) : Nat :=
  if a = 0 then 0
  else if off ≤ a ∧ isBar (a - off) then a - off else 0

/-- The address computed by the C++ cast selected by tag `k` from a
pointer of static type `src` to one of static type `dst`, on the
`Foo`/`Bar` layout with offset `off` and layout oracle `isBar`.
`reinterpret_cast` and `const_cast` never adjust the address. -/
def castAddr (k : CKind) (src dst : Ty) (isBar : Nat → Bool) (off a : Nat) : Nat :=
  match k with
  | .raw => a
  | .cst => a
  | .stat =>
    match src, dst with
    | .bar, .foo => upAddr off a
    | .foo, .bar => downStatic off a
    | _, _ => a
  | .dyn =>
    match src, dst with
    | .bar, .foo => upAddr off a
    | .foo, .bar => downDyn isBar off a
    | _, _ => a

/-- `std::is_convertible<src*, dst*>::value` for the `Foo`/`Bar`
hierarchy: a derived pointer converts implicitly to a base pointer,
never the reverse. -/
def ptrConvertible : Ty → Ty → Bool
  | .bar, .foo => true
  | .foo, .bar => false
  | _, _ => true

/-- `cast_shared_ptr<T>(other, tag)`: the aliasing constructor
`std::shared_ptr<T>(other, cast(other.get()))` — shares `other`'s
control block (even an empty one) and stores the cast address. -/
def castSharedPtr (k : CKind) (src dst : Ty) (isBar : Nat → Bool) (off : Nat)
    (s : SPtr) : SPtr :=
  ⟨s.cb, castAddr k src dst isBar off s.addr⟩

/-- `cast_weak_ptr(into_unsafe_ptr, from_weak_ptr, tag)` (cpl.hpp lines
1680-1689): if the cast unsafe shared handle is non-null return it
(converted to a weak handle), else re-lock the source weak handle and
cast the resulting shared handle. -/
def castWeakPtr (k : CKind) (src dst : Ty) (isBar : Nat → Bool) (off : Nat)
    (h : Heap) (intoUnsafePtr : SPtr) (fromWeakPtr : WPtr) : WPtr :=
  if intoUnsafePtr.toBool then WPtr.ofShared intoUnsafePtr
  else WPtr.ofShared (castSharedPtr k src dst isBar off (fromWeakPtr.lock h))

/-! ## The held-value wrapper `is<T>` (cpl.hpp lines 1566-1594) -/

/-- Safe-mode `is<T>`: the held value `m_value` (we record its address)
and `m_shared_ptr`, the no-op-deleter shared handle
`std::shared_ptr<T>(&m_value, no_delete<T>())` used as the liveness
signal. -/
structure IsS where
  addr : Nat
  sh : SPtr
deriving Repr, DecidableEq

/-- Safe-mode `is<T>` constructor: build the value (at address `a`) and
attach a fresh no-op-deleter control block to it. -/
def mkIsS (h : Heap) (a : Nat) : Heap × IsS :=
  let (h', i) := h.alloc
  (h', ⟨a, ⟨some i, a⟩⟩)

/-- `is<T>::get()`: the address of `m_value`. -/
def IsS.get (v : IsS) : Nat := v.addr

/-- Destroying an `is<T>` destroys its `m_shared_ptr` member, dropping
the liveness block's strong count to zero. -/
def destroyIsS (h : Heap) (v : IsS) : Heap :=
  match v.sh.cb with
  | some i => h.release i
  | none => h

/-- Fast-mode `is<T>`: just the held value (its address). -/
structure IsF where
  addr : Nat
deriving Repr, DecidableEq

/-- Fast-mode `is<T>::get()`. -/
def IsF.get (v : IsF) : Nat := v.addr

/-! ## The shared family `shared<T>`, `sref<T>`, `sptr<T>`
(cpl.hpp lines 1692-1766)

`shared<T>` derives from `std::shared_ptr<T>` in both build modes, so one
model serves both: an `SPtr` over the heap of control blocks. -/

/-- `shared<T>(T* raw_ptr, unsafe_raw_t)` — `std::shared_ptr<T>(raw_ptr)`
allocates an owning control block (also for a null pointer).  This is the
path taken by `make_sref`, `make_sptr` and the null `sptr`
constructors. -/
def mkSharedRaw (h : Heap) (a : Nat) : Heap × SPtr :=
  let (h', i) := h.alloc
  (h', ⟨some i, a⟩)

/-- `shared<T>(const shared<U>&)` converting copy (requires
`std::is_convertible<U*, T*>`): copy the handle, incrementing the strong
count, with the address adjusted by the implicit pointer conversion
`adj`. -/
def sharedCopyConvert (adj : Nat → Nat) (h : Heap) (s : SPtr) : Heap × SPtr :=
  match s.cb with
  | some i => (h.incr i, ⟨some i, adj s.addr⟩)
  | none => (h, ⟨none, adj s.addr⟩)

/-- `shared<T>(const shared<U>& other, C cast_type)` — the cast
construction through `cast_shared_ptr`; shares (and retains) the control
block and stores the cast address. -/
def sharedCastCtor (k : CKind) (src dst : Ty) (isBar : Nat → Bool) (off : Nat)
    (h : Heap) (s : SPtr) : Heap × SPtr :=
  match s.cb with
  | some i => (h.incr i, castSharedPtr k src dst isBar off s)
  | none => (h, castSharedPtr k src dst isBar off s)

/-- Destroying a shared handle decrements the strong count; the value
dies when the count reaches zero. -/
def destroySharedS (h : Heap) (s : SPtr) : Heap :=
  match s.cb with
  | some i => h.release i
  | none => h

/-- `sref<T>::sref(const sptr<U>&)` (cpl.hpp lines 1751-1755): the
explicit conversion from a shared pointer to a shared reference.  It
delegates to the `shared<T>` converting copy constructor; NOTE: the
source code performs no null check in either build mode. -/
def srefOfSptr (adj : Nat → Nat) (h : Heap) (s : SPtr) : Heap × SPtr :=
  sharedCopyConvert adj h s

/-- `sref<T>::get()` / `sptr<T>::get()`: `std::shared_ptr<T>::get()`,
the stored address, with no check in either build mode. -/
def SPtr.get (s : SPtr) : Nat := s.addr

/-! ## The unique family `unique<T>`, `uref<T>`, `uptr<T>`
(cpl.hpp lines 1768-1885) -/

/-- Safe-mode `unique<T>`: the `std::unique_ptr<T>` (its raw address)
and `m_shared_ptr`, the no-op-deleter liveness handle kept alongside
it. -/
structure UniqueS where
  uaddr : Nat
  sh : SPtr
deriving Repr, DecidableEq

/-- `unique<T>(T* raw_ptr, unsafe_raw_t)`:
`std::unique_ptr<T>(raw_ptr)` plus
`m_shared_ptr(raw_ptr, no_delete<T>())`, which allocates a control block
even for a null pointer.  This is the path taken by `make_uref`,
`make_uptr` and the null `uptr` constructors. -/
def mkUniqueRawS (h : Heap) (a : Nat) : Heap × UniqueS :=
  let (h', i) := h.alloc
  (h', ⟨a, ⟨some i, a⟩⟩)

/-- `unique<T>(unique<U>&& other)` move construction (and move
assignment, cpl.hpp lines 1804-1823): both `std::unique_ptr` and
`m_shared_ptr` are moved, with addresses adjusted by the implicit
pointer conversion.  Returns (destination, emptied source); moving a
`std::shared_ptr` transfers the control block without touching its
strong count. -/
def uniqueMoveS (adj : Nat → Nat) (u : UniqueS) : UniqueS × UniqueS :=
  (⟨adj u.uaddr, ⟨u.sh.cb, adj u.sh.addr⟩⟩, ⟨0, SPtr.null⟩)

/-- `unique<T>(unique<U>&& other, C cast_type)` (cpl.hpp lines
1790-1799): cast both the unique handle and the liveness handle;
returns (destination, emptied source). -/
def uniqueCastCtorS (k : CKind) (src dst : Ty) (isBar : Nat → Bool) (off : Nat)
    (u : UniqueS) : UniqueS × UniqueS :=
  (⟨castAddr k src dst isBar off u.uaddr, castSharedPtr k src dst isBar off u.sh⟩,
   ⟨0, SPtr.null⟩)

/-- `unique<T>::get()` (inherited from `std::unique_ptr`; also
`uref<T>::get()`, cpl.hpp lines 1876-1884, which performs no check in
either build mode). -/
def UniqueS.get (u : UniqueS) : Nat := u.uaddr

/-- `std::unique_ptr<T>::reset()`, publicly inherited by
`unique<T>`/`uptr<T>`: deletes the owned value and stores null.  NOTE:
`cpl.hpp` v0.0.15 does not override `reset`, so `m_shared_ptr` is left
untouched — the liveness block stays alive and keeps the stale
address. -/
def uniqueResetS (u : UniqueS) : UniqueS :=
  ⟨0, u.sh⟩

/-- Destroying a `unique<T>` deletes the owned value and destroys
`m_shared_ptr`, dropping the liveness block's strong count. -/
def destroyUniqueS (h : Heap) (u : UniqueS) : Heap :=
  match u.sh.cb with
  | some i => h.release i
  | none => h

/-- Fast-mode `unique<T>`: just the `std::unique_ptr` raw address. -/
structure UniqueF where
  uaddr : Nat
deriving Repr, DecidableEq

/-- Fast-mode `unique<T>::get()`. -/
def UniqueF.get (u : UniqueF) : Nat := u.uaddr

/-- Fast-mode move: transfer the address, null the source. -/
def uniqueMoveF (adj : Nat → Nat) (u : UniqueF) : UniqueF × UniqueF :=
  (⟨adj u.uaddr⟩, ⟨0⟩)

/-! ## The borrowing family `borrow<T>`, `ref<T>`, `ptr<T>`
(cpl.hpp lines 1887-2136) -/

/-- Safe-mode `borrow<T>`: `m_unsafe_ptr` (an owning no-op-deleter
shared handle, non-empty only for borrows created from raw data through
`unsafe_ref`/`unsafe_ptr`) and `m_weak_ptr` (the weak observer of the
owner's liveness handle). -/
structure BorrowS where
  unsafePtr : SPtr
  weak : WPtr
deriving Repr, DecidableEq

/-- `borrow<T>(T* raw_ptr, unsafe_raw_t)` (cpl.hpp lines 1906-1917):
`m_unsafe_ptr(raw_ptr, no_delete<T>())` allocates a fresh control block
(also for a null pointer — this is the path of the null `ptr`
constructors), and `m_weak_ptr` observes it. -/
def borrowUnsafeRawS (h : Heap) (a : Nat) : Heap × BorrowS :=
  let (h', i) := h.alloc
  (h', ⟨⟨some i, a⟩, ⟨some i, a⟩⟩)

/-- `borrow<T>(is<U>&)` (cpl.hpp lines 1948-1960): empty `m_unsafe_ptr`;
`m_weak_ptr` observes the owner's `m_shared_ptr`, the address adjusted
by the implicit pointer conversion `adj`. -/
def borrowOfIsS (adj : Nat → Nat) (v : IsS) : BorrowS :=
  ⟨SPtr.null, ⟨v.sh.cb, adj v.sh.addr⟩⟩

/-- `borrow<T>(const shared<U>&)` (cpl.hpp lines 1962-1974): empty
`m_unsafe_ptr`; `m_weak_ptr` observes the shared handle itself. -/
def borrowOfSharedS (adj : Nat → Nat) (s : SPtr) : BorrowS :=
  ⟨SPtr.null, ⟨s.cb, adj s.addr⟩⟩

/-- `borrow<T>(const unique<U>&)` (cpl.hpp lines 1976-1988): empty
`m_unsafe_ptr`; `m_weak_ptr` observes the owner's `m_shared_ptr`. -/
def borrowOfUniqueS (adj : Nat → Nat) (u : UniqueS) : BorrowS :=
  ⟨SPtr.null, ⟨u.sh.cb, adj u.sh.addr⟩⟩

/-- `borrow<T>(borrow<U> other)` converting copy (cpl.hpp lines
1933-1946): if `other.m_unsafe_ptr` is non-null, re-wrap its raw address
in a fresh no-op-deleter block and observe that; otherwise the new
`m_unsafe_ptr` is empty and `m_weak_ptr` is built from
`other.m_weak_ptr.lock()` (empty when the owner expired), the address
adjusted by the implicit conversion `adj`. -/
def borrowCopyS (adj : Nat → Nat) (h : Heap) (b : BorrowS) : Heap × BorrowS :=
  if b.unsafePtr.toBool then
    let (h', i) := h.alloc
    (h', ⟨⟨some i, adj b.unsafePtr.addr⟩, ⟨some i, adj b.unsafePtr.addr⟩⟩)
  else
    let locked := b.weak.lock h
    (h, ⟨SPtr.null, WPtr.ofShared ⟨locked.cb, adj locked.addr⟩⟩)

/-- `borrow<T>(borrow<U> other, C cast_type)` (cpl.hpp lines 1919-1931):
cast `m_unsafe_ptr` through `cast_shared_ptr` and build `m_weak_ptr`
through `cast_weak_ptr`.  No assertion anywhere on this path. -/
def borrowCastCtorS (k : CKind) (src dst : Ty) (isBar : Nat → Bool) (off : Nat)
    (h : Heap) (b : BorrowS) : BorrowS :=
  let intoUnsafePtr := castSharedPtr k src dst isBar off b.unsafePtr
  ⟨intoUnsafePtr, castWeakPtr k src dst isBar off h intoUnsafePtr b.weak⟩

/-- `ptr<T>::get()` in safe mode (cpl.hpp lines 2011-2018):
`m_weak_ptr.lock().get()` — the observed address while the owner's
liveness block is alive, null once it expired.  No assertion. -/
def ptrGetS (h : Heap) (b : BorrowS) : Nat :=
  (b.weak.lock h).addr

/-- The `CPL_ASSERT(m_weak_ptr.lock().get(), "constructing a null
reference")` check performed by every safe-mode `ref<T>` constructor. -/
def refCtorAssert (h : Heap) (b : BorrowS) : Except String BorrowS :=
  if (b.weak.lock h).addr ≠ 0 then .ok b
  else .error "constructing a null reference"

/-- `ref<T>::ref(const ptr<U>&)` (cpl.hpp lines 2049-2054): the borrow
converting copy followed by the non-null construction assertion. -/
def refOfPtrS (adj : Nat → Nat) (h : Heap) (p : BorrowS) :
    Heap × Except String BorrowS :=
  let (h', b) := borrowCopyS adj h p
  (h', refCtorAssert h' b)

/-- `ref<T>::ref(is<U>&)` (cpl.hpp lines 2056-2060): borrow from the
held value; this constructor performs no assertion. -/
def refOfIsS (adj : Nat → Nat) (v : IsS) : BorrowS :=
  borrowOfIsS adj v

/-- `ref<T>::ref(sref<U>&)` (cpl.hpp lines 2069-2074): borrow from the
shared reference, then assert non-null. -/
def refOfSrefS (adj : Nat → Nat) (h : Heap) (s : SPtr) : Except String BorrowS :=
  refCtorAssert h (borrowOfSharedS adj s)

/-- `ref<T>::ref(uref<U>&)` (cpl.hpp lines 2091-2096): borrow from the
unique reference, then assert non-null. -/
def refOfUrefS (adj : Nat → Nat) (h : Heap) (u : UniqueS) : Except String BorrowS :=
  refCtorAssert h (borrowOfUniqueS adj u)

/-- `ref<T>(const borrow<U>&, C cast_type)` (cpl.hpp lines 2029-2032):
the borrow cast constructor followed by the non-null assertion. -/
def refCastCtorS (k : CKind) (src dst : Ty) (isBar : Nat → Bool) (off : Nat)
    (h : Heap) (b : BorrowS) : Except String BorrowS :=
  refCtorAssert h (borrowCastCtorS k src dst isBar off h b)

/-- `ref<T>::get()` in safe mode (cpl.hpp lines 2113-2135):
`m_weak_ptr.lock().get()` followed by
`CPL_ASSERT(raw_ptr, "accessing a null reference")`. -/
def refGetS (h : Heap) (b : BorrowS) : Except String Nat :=
  let rawPtr := (b.weak.lock h).addr
  if rawPtr ≠ 0 then .ok rawPtr
  else .error "accessing a null reference"

/-- Fast-mode `borrow<T>`: exactly the raw pointer `m_raw_ptr`. -/
structure BorrowF where
  raw : Nat
deriving Repr, DecidableEq

/-- Fast-mode `borrow<T>(borrow<U>)` converting copy: copy the raw
pointer through the implicit conversion. -/
def borrowCopyF (adj : Nat → Nat) (b : BorrowF) : BorrowF :=
  ⟨adj b.raw⟩

/-- Fast-mode `borrow<T>(borrow<U>, C cast_type)`: cast the raw
pointer. -/
def borrowCastCtorF (k : CKind) (src dst : Ty) (isBar : Nat → Bool) (off : Nat)
    (b : BorrowF) : BorrowF :=
  ⟨castAddr k src dst isBar off b.raw⟩

/-- Fast-mode `ptr<T>::get()` / `ref<T>::get()`: the stored raw pointer,
no liveness check, and `CPL_ASSERT` compiles to nothing. -/
def borrowGetF (b : BorrowF) : Nat := b.raw

/-- Fast-mode borrow from an `is<T>` / `unique<T>` / `shared<T>`:
`m_raw_ptr(other.get())` with the implicit conversion. -/
def borrowOfOwnerF (adj : Nat → Nat) (ownerGet : Nat) : BorrowF :=
  ⟨adj ownerGet⟩

/-! ## The cast API (cpl.hpp lines 2178-2374)

Every overload is guarded by the compile-time constraint
`std::enable_if<std::is_convertible<T*, U*>::value>` with `T` the
destination and `U` the source type, so only identity casts and
downcasts (base source, derived destination) compile; we model the
guard by returning `none` when `ptrConvertible dst src` fails ("does
not compile").

In safe mode `cast_static` computes both the static and the dynamic
cast of `from.get()` and raises
`CPL_ASSERT(to_dynamic == to_raw, "static cast gave the wrong result")`
when they disagree; `cast_dynamic`, `cast_reinterpret` and `cast_const`
construct the result directly through the tagged cast constructors with
no check in either mode. -/

/-- `cast_static<T>(const sref<U>&)` in safe mode (cpl.hpp lines
2182-2191). -/
def castStaticSrefS (src dst : Ty) (isBar : Nat → Bool) (off : Nat)
    (h : Heap) (s : SPtr) : Option (Except String (Heap × SPtr)) :=
  if ptrConvertible dst src then some (
    let fromRaw := s.get
    if castAddr .dyn src dst isBar off fromRaw
        = castAddr .stat src dst isBar off fromRaw then
      .ok (sharedCastCtor .stat src dst isBar off h s)
    else .error "static cast gave the wrong result")
  else none

/-- `cast_static<T>(const sref<U>&)` in fast mode: no check, just the
tagged cast construction. -/
def castStaticSrefF (src dst : Ty) (isBar : Nat → Bool) (off : Nat)
    (h : Heap) (s : SPtr) : Option (Heap × SPtr) :=
  if ptrConvertible dst src then some (sharedCastCtor .stat src dst isBar off h s)
  else none

/-- `cast_static<T>(const sptr<U>&)` in safe mode (cpl.hpp lines
2197-2206). -/
def castStaticSptrS (src dst : Ty) (isBar : Nat → Bool) (off : Nat)
    (h : Heap) (s : SPtr) : Option (Except String (Heap × SPtr)) :=
  if ptrConvertible dst src then some (
    let fromRaw := s.get
    if castAddr .dyn src dst isBar off fromRaw
        = castAddr .stat src dst isBar off fromRaw then
      .ok (sharedCastCtor .stat src dst isBar off h s)
    else .error "static cast gave the wrong result")
  else none

/-- `cast_static<T>(const sptr<U>&)` in fast mode. -/
def castStaticSptrF (src dst : Ty) (isBar : Nat → Bool) (off : Nat)
    (h : Heap) (s : SPtr) : Option (Heap × SPtr) :=
  if ptrConvertible dst src then some (sharedCastCtor .stat src dst isBar off h s)
  else none

/-- `cast_dynamic<T>`, `cast_reinterpret<T>` and `cast_const<T>` on an
`sref<U>` (cpl.hpp lines 2270-2272, 2306-2308, 2342-2344): the tagged
cast construction with no check in either build mode; the tag `k` is
`unsafe_dynamic_t` / `unsafe_raw_t` / `unsafe_const_t` respectively. -/
def castOtherSref (k : CKind) (src dst : Ty) (isBar : Nat → Bool) (off : Nat)
    (h : Heap) (s : SPtr) : Option (Heap × SPtr) :=
  if ptrConvertible dst src then some (sharedCastCtor k src dst isBar off h s)
  else none

/-- `cast_dynamic<T>`, `cast_reinterpret<T>` and `cast_const<T>` on an
`sptr<U>` (cpl.hpp lines 2276-2278, 2312-2314, 2348-2350). -/
def castOtherSptr (k : CKind) (src dst : Ty) (isBar : Nat → Bool) (off : Nat)
    (h : Heap) (s : SPtr) : Option (Heap × SPtr) :=
  if ptrConvertible dst src then some (sharedCastCtor k src dst isBar off h s)
  else none

/-- `cast_static<T>(uref<U>&&)` in safe mode (cpl.hpp lines 2212-2221);
consumes the source, returning (result, emptied source). -/
def castStaticUrefS (src dst : Ty) (isBar : Nat → Bool) (off : Nat)
    (u : UniqueS) : Option (Except String (UniqueS × UniqueS)) :=
  if ptrConvertible dst src then some (
    let fromRaw := u.get
    if castAddr .dyn src dst isBar off fromRaw
        = castAddr .stat src dst isBar off fromRaw then
      .ok (uniqueCastCtorS .stat src dst isBar off u)
    else .error "static cast gave the wrong result")
  else none

/-- `cast_static<T>(uref<U>&&)` in fast mode. -/
def castStaticUrefF (src dst : Ty) (isBar : Nat → Bool) (off : Nat)
    (u : UniqueF) : Option (UniqueF × UniqueF) :=
  if ptrConvertible dst src then
    some (⟨castAddr .stat src dst isBar off u.uaddr⟩, ⟨0⟩)
  else none

/-- `cast_static<T>(uptr<U>&&)` in safe mode (cpl.hpp lines 2227-2236). -/
def castStaticUptrS (src dst : Ty) (isBar : Nat → Bool) (off : Nat)
    (u : UniqueS) : Option (Except String (UniqueS × UniqueS)) :=
  if ptrConvertible dst src then some (
    let fromRaw := u.get
    if castAddr .dyn src dst isBar off fromRaw
        = castAddr .stat src dst isBar off fromRaw then
      .ok (uniqueCastCtorS .stat src dst isBar off u)
    else .error "static cast gave the wrong result")
  else none

/-- `cast_static<T>(uptr<U>&&)` in fast mode. -/
def castStaticUptrF (src dst : Ty) (isBar : Nat → Bool) (off : Nat)
    (u : UniqueF) : Option (UniqueF × UniqueF) :=
  if ptrConvertible dst src then
    some (⟨castAddr .stat src dst isBar off u.uaddr⟩, ⟨0⟩)
  else none

/-- `cast_dynamic<T>` / `cast_reinterpret<T>` / `cast_const<T>` on a
`uref<U>&&` in safe mode (cpl.hpp lines 2282-2284, 2318-2320,
2354-2356): the tagged cast construction, no check. -/
def castOtherUrefS (k : CKind) (src dst : Ty) (isBar : Nat → Bool) (off : Nat)
    (u : UniqueS) : Option (UniqueS × UniqueS) :=
  if ptrConvertible dst src then some (uniqueCastCtorS k src dst isBar off u)
  else none

/-- `cast_dynamic<T>` / `cast_reinterpret<T>` / `cast_const<T>` on a
`uref<U>&&` in fast mode. -/
def castOtherUrefF (k : CKind) (src dst : Ty) (isBar : Nat → Bool) (off : Nat)
    (u : UniqueF) : Option (UniqueF × UniqueF) :=
  if ptrConvertible dst src then
    some (⟨castAddr k src dst isBar off u.uaddr⟩, ⟨0⟩)
  else none

/-- `cast_dynamic<T>` / `cast_reinterpret<T>` / `cast_const<T>` on a
`uptr<U>&&` in safe mode (cpl.hpp lines 2288-2290, 2324-2326,
2360-2362). -/
def castOtherUptrS (k : CKind) (src dst : Ty) (isBar : Nat → Bool) (off : Nat)
    (u : UniqueS) : Option (UniqueS × UniqueS) :=
  if ptrConvertible dst src then some (uniqueCastCtorS k src dst isBar off u)
  else none

/-- `cast_dynamic<T>` / `cast_reinterpret<T>` / `cast_const<T>` on a
`uptr<U>&&` in fast mode. -/
def castOtherUptrF (k : CKind) (src dst : Ty) (isBar : Nat → Bool) (off : Nat)
    (u : UniqueF) : Option (UniqueF × UniqueF) :=
  if ptrConvertible dst src then
    some (⟨castAddr k src dst isBar off u.uaddr⟩, ⟨0⟩)
  else none

/-- `cast_static<T>(const ptr<U>&)` in safe mode (cpl.hpp lines
2257-2266): `from_ptr.get()` re-locks the weak handle, then the
static/dynamic agreement is asserted, then the `ptr<T>` is built through
the borrow cast constructor. -/
def castStaticPtrS (src dst : Ty) (isBar : Nat → Bool) (off : Nat)
    (h : Heap) (p : BorrowS) : Option (Except String BorrowS) :=
  if ptrConvertible dst src then some (
    let fromRaw := ptrGetS h p
    if castAddr .dyn src dst isBar off fromRaw
        = castAddr .stat src dst isBar off fromRaw then
      .ok (borrowCastCtorS .stat src dst isBar off h p)
    else .error "static cast gave the wrong result")
  else none

/-- `cast_static<T>(const ptr<U>&)` in fast mode. -/
def castStaticPtrF (src dst : Ty) (isBar : Nat → Bool) (off : Nat)
    (p : BorrowF) : Option BorrowF :=
  if ptrConvertible dst src then some (borrowCastCtorF .stat src dst isBar off p)
  else none

/-- `cast_dynamic<T>(const ptr<U>&)` in safe mode (cpl.hpp lines
2335-2338): the tagged borrow cast construction, no check. -/
def castDynamicPtrS (src dst : Ty) (isBar : Nat → Bool) (off : Nat)
    (h : Heap) (p : BorrowS) : Option BorrowS :=
  if ptrConvertible dst src then some (borrowCastCtorS .dyn src dst isBar off h p)
  else none

/-- `cast_dynamic<T>(const ptr<U>&)` in fast mode. -/
def castDynamicPtrF (src dst : Ty) (isBar : Nat → Bool) (off : Nat)
    (p : BorrowF) : Option BorrowF :=
  if ptrConvertible dst src then some (borrowCastCtorF .dyn src dst isBar off p)
  else none

/-- `cast_reinterpret<T>(const ptr<U>&)` in safe mode (cpl.hpp lines
2299-2302). -/
def castReinterpretPtrS (src dst : Ty) (isBar : Nat → Bool) (off : Nat)
    (h : Heap) (p : BorrowS) : Option BorrowS :=
  if ptrConvertible dst src then some (borrowCastCtorS .raw src dst isBar off h p)
  else none

/-- `cast_const<T>(const ptr<U>&)` in safe mode (cpl.hpp lines
2371-2374). -/
def castConstPtrS (src dst : Ty) (isBar : Nat → Bool) (off : Nat)
    (h : Heap) (p : BorrowS) : Option BorrowS :=
  if ptrConvertible dst src then some (borrowCastCtorS .cst src dst isBar off h p)
  else none

/-- `cast_static<T>(const ref<U>&)` in safe mode (cpl.hpp lines
2242-2251): `from_ref.get()` itself asserts non-null, then the
static/dynamic agreement is asserted, then the `ref<T>` cast constructor
asserts non-null construction. -/
def castStaticRefS (src dst : Ty) (isBar : Nat → Bool) (off : Nat)
    (h : Heap) (b : BorrowS) : Option (Except String BorrowS) :=
  if ptrConvertible dst src then some (do
    let fromRaw ← refGetS h b
    if castAddr .dyn src dst isBar off fromRaw
        = castAddr .stat src dst isBar off fromRaw then
      refCastCtorS .stat src dst isBar off h b
    else .error "static cast gave the wrong result")
  else none

/-- `cast_static<T>(const ref<U>&)` in fast mode: no checks anywhere. -/
def castStaticRefF (src dst : Ty) (isBar : Nat → Bool) (off : Nat)
    (b : BorrowF) : Option BorrowF :=
  if ptrConvertible dst src then some (borrowCastCtorF .stat src dst isBar off b)
  else none

/-- `cast_dynamic<T>(const ref<U>&)` in safe mode (cpl.hpp lines
2329-2332): the `ref<T>` cast constructor (which asserts non-null
construction), no further check. -/
def castDynamicRefS (src dst : Ty) (isBar : Nat → Bool) (off : Nat)
    (h : Heap) (b : BorrowS) : Option (Except String BorrowS) :=
  if ptrConvertible dst src then some (refCastCtorS .dyn src dst isBar off h b)
  else none

/-- `cast_dynamic<T>(const ref<U>&)` in fast mode. -/
def castDynamicRefF (src dst : Ty) (isBar : Nat → Bool) (off : Nat)
    (b : BorrowF) : Option BorrowF :=
  if ptrConvertible dst src then some (borrowCastCtorF .dyn src dst isBar off b)
  else none

/-! ## The `CPL_ASSERT` configuration macro (cpl.hpp lines 1368-1383) -/

/-- The build mode selected by the mandatory, mutually exclusive
`CPL_FAST` / `CPL_SAFE` flags. -/
inductive Mode | fast | safe
deriving Repr, DecidableEq

/-- What an expansion of `CPL_ASSERT(condition, message)` does when the
condition is false. -/
inductive AssertBehavior
  /-- The check compiles to nothing. -/
  | noop
  /-- The default: `throw(std::logic_error(MESSAGE))`. -/
  | throwLogicError
  /-- A user-supplied replacement, defined before including the header. -/
  | custom
deriving Repr, DecidableEq

/-- Lines 1368-1378: `#ifndef CPL_ASSERT` — if the user did not define
`CPL_ASSERT` before inclusion, define the throwing default. -/
def establishDefaultAssert (userDef : Option AssertBehavior) : AssertBehavior :=
  userDef.getD .throwLogicError

/-- Lines 1380-1383: `#ifdef CPL_FAST` — `#undef CPL_ASSERT` and
redefine it to expand to nothing. -/
def applyFastOverride (mode : Mode) (cur : AssertBehavior) : AssertBehavior :=
  match mode with
  | .fast => .noop
  | .safe => cur

/-- The `CPL_ASSERT` definition in force after the preprocessor has
finished with cpl.hpp lines 1368-1383, given the build mode and the
user's pre-inclusion definition (if any). -/
def effectiveAssert (mode : Mode) (userDef : Option AssertBehavior) : AssertBehavior :=
  applyFastOverride mode (establishDefaultAssert userDef)

/-! ## `opt<T>` and `wptr<T>`

Modelled from the spec: `opt<T>` and `wptr<T>` are absent from the
`cpl.hpp` snapshots under `src/` (only their tests, in
`src/unnamed/part_001`, reference `cpl::opt`); spec sections 3, 4.2 and
4.3 describe them. -/

/-- Modelled from the spec: safe-mode `opt<T>` "wraps a standard
optional-like container holding zero-or-one `T`; in safe mode it
mirrors the same liveness-handle technique, re-pointing/clearing the
handle whenever the optional transitions between empty and non-empty".
`addr` is the address of the contained value's storage, `engaged`
whether a value is present, `sh` the liveness handle (empty while the
optional is empty). -/
structure OptS where
  addr : Nat
  engaged : Bool
  sh : SPtr
deriving Repr, DecidableEq

/-- Modelled from the spec: constructing an `opt<T>` with a value (at
storage address `a`) points a fresh liveness handle at it. -/
def mkOptS (h : Heap) (a : Nat) : Heap × OptS :=
  let (h', i) := h.alloc
  (h', ⟨a, true, ⟨some i, a⟩⟩)

/-- Modelled from the spec: `opt<T>::reset()` empties the optional and
clears the liveness handle (releasing its control block), so borrows
detect the transition. -/
def optResetS (h : Heap) (o : OptS) : Heap × OptS :=
  match o.sh.cb with
  | some i => (h.release i, ⟨o.addr, false, SPtr.null⟩)
  | none => (h, ⟨o.addr, false, SPtr.null⟩)

/-- Modelled from the spec: a borrow constructed from an `opt<T>`
observes its liveness handle, like the `is<T>` case. -/
def borrowOfOptS (adj : Nat → Nat) (o : OptS) : BorrowS :=
  ⟨SPtr.null, ⟨o.sh.cb, adj o.sh.addr⟩⟩

/-- Fast mode `opt<T>`: the optional container alone. -/
structure OptF where
  addr : Nat
  engaged : Bool
deriving Repr, DecidableEq

/-- Modelled from the spec: `wptr<T>` "mirrors a standard weak-observer
handle and offers `lock()` returning an `sptr<T>` (null if the target
is gone)" — a `std::weak_ptr<T>` in both build modes. -/
structure WptrT where
  w : WPtr
deriving Repr, DecidableEq

/-- Modelled from the spec: constructing a `wptr<T>` from a shared
handle (`sref`/`sptr`), with the implicit pointer conversion of the
stored address (`std::weak_ptr<T>(const std::shared_ptr<U>&)`). -/
def mkWptr (adj : Nat → Nat) (s : SPtr) : WptrT :=
  ⟨⟨s.cb, adj s.addr⟩⟩

/-- Modelled from the spec: `wptr<T>::lock()` returns an `sptr<T>`,
null if the target is gone. -/
def WptrT.lock (h : Heap) (p : WptrT) : Heap × SPtr :=
  let locked := p.w.lock h
  match locked.cb with
  | some i => (h.incr i, locked)
  | none => (h, locked)

/-- `ref<T>::ref(ref<U>&)` converting copy (cpl.hpp lines 2034-2039):
the borrow converting copy followed by the non-null construction
assertion — the same shape as construction from a `ptr`. -/
def refOfRefS (adj : Nat → Nat) (h : Heap) (r : BorrowS) :
    Heap × Except String BorrowS :=
  let (h', b) := borrowCopyS adj h r
  (h', refCtorAssert h' b)

/-! ### Resolved-address projections

Projections extracting the resolved address from a cast result, used to
state the round-trip properties (`none` = the cast does not compile,
`error` = an assertion failure). -/

/-- Resolved address of a checked shared-family cast result. -/
def srefCastResolved : Option (Except String (Heap × SPtr)) → Option (Except String Nat) :=
  Option.map (Except.map (fun p => p.2.get))

/-- Resolved address of an unchecked shared-family cast result. -/
def sharedCastResolved : Option (Heap × SPtr) → Option Nat :=
  Option.map (fun p => p.2.get)

/-- Resolved address of a checked unique-family cast result. -/
def uniqueCastResolved : Option (Except String (UniqueS × UniqueS)) → Option (Except String Nat) :=
  Option.map (Except.map (fun p => p.1.get))

/-- Resolved address of an unchecked safe-mode unique-family cast
result. -/
def uniqueCastResolvedUnchecked : Option (UniqueS × UniqueS) → Option Nat :=
  Option.map (fun p => p.1.get)

/-- Resolved address of an unchecked fast-mode unique-family cast
result. -/
def uniqueCastResolvedF : Option (UniqueF × UniqueF) → Option Nat :=
  Option.map (fun p => p.1.get)

/-- Resolved address of a checked safe-mode `ptr` cast result. -/
def ptrCastResolvedChecked (h : Heap) : Option (Except String BorrowS) → Option (Except String Nat) :=
  Option.map (Except.map (ptrGetS h))

/-- Resolved address of an unchecked safe-mode `ptr` cast result. -/
def ptrCastResolved (h : Heap) : Option BorrowS → Option Nat :=
  Option.map (ptrGetS h)

/-- Resolved address of a safe-mode `ref` cast result (the access
itself asserts). -/
def refCastResolved (h : Heap) : Option (Except String BorrowS) → Option (Except String Nat) :=
  Option.map (fun e => e.bind (refGetS h))

/-- Resolved address of a fast-mode borrow cast result. -/
def borrowCastResolvedF : Option BorrowF → Option Nat :=
  Option.map borrowGetF

/-! ## Basic facts about the control-block store -/

/-- A freshly allocated control block has strong count one. -/
theorem Heap.strong_alloc_self (h : Heap) : (h.alloc.1).strong h.alloc.2 = 1 := by
  show (h.blocks ++ [1]).getD h.blocks.length 0 = 1
  rw [List.getD_append_right _ _ _ _ le_rfl]
  simp

/-- A freshly allocated control block is alive. -/
theorem Heap.aliveCB_alloc_self (h : Heap) : (h.alloc.1).aliveCB h.alloc.2 = true := by
  simp [Heap.aliveCB, Heap.strong_alloc_self]

/-- Releasing a block decrements its strong count. -/
theorem Heap.strong_release_self (h : Heap) (i : Nat) :
    (h.release i).strong i = h.strong i - 1 := by
  show (h.blocks.set i (h.strong i - 1)).getD i 0 = h.strong i - 1
  by_cases hi : i < h.blocks.length
  · rw [List.getD_eq_getElem _ _ (by simpa using hi)]
    exact List.getElem_set_self _
  · push_neg at hi
    rw [List.getD_eq_default _ _ (by simpa using hi)]
    show 0 = h.strong i - 1
    have : h.strong i = 0 := List.getD_eq_default _ _ hi
    omega

/-- Releasing the single reference to a fresh block expires it. -/
theorem Heap.aliveCB_alloc_release (h : Heap) :
    ((h.alloc.1).release h.alloc.2).aliveCB h.alloc.2 = false := by
  simp [Heap.aliveCB, Heap.strong_release_self, Heap.strong_alloc_self]

/-! ## Basic facts about the cast address arithmetic -/

/-- The upcast of a non-null address is non-null. -/
theorem upAddr_ne_zero (off : Nat) {b : Nat} (hb : b ≠ 0) : upAddr off b ≠ 0 := by
  simp [upAddr, hb]

/-- The upcast of a non-null address adds the layout offset. -/
theorem upAddr_of_ne_zero (off : Nat) {b : Nat} (hb : b ≠ 0) :
    upAddr off b = b + off := by
  simp [upAddr, hb]

/-- A static downcast undoes the upcast. -/
theorem downStatic_upAddr (off : Nat) {b : Nat} (hb : b ≠ 0) :
    downStatic off (upAddr off b) = b := by
  simp [upAddr, downStatic, hb]

/-- A dynamic downcast of the base subobject of a genuine `Bar` object
recovers the `Bar` base address. -/
theorem downDyn_upAddr (isBar : Nat → Bool) (off : Nat) {b : Nat}
    (hb : b ≠ 0) (hBar : isBar b = true) :
    downDyn isBar off (upAddr off b) = b := by
  have h1 : upAddr off b = b + off := upAddr_of_ne_zero off hb
  simp only [downDyn, h1]
  have h2 : b + off ≠ 0 := by omega
  have h3 : b + off - off = b := by omega
  simp [h2, h3, hBar]

/-- Every C++ cast maps the null pointer to the null pointer. -/
theorem castAddr_zero (k : CKind) (src dst : Ty) (isBar : Nat → Bool) (off : Nat) :
    castAddr k src dst isBar off 0 = 0 := by
  cases k <;> cases src <;> cases dst <;> simp [castAddr, upAddr, downStatic, downDyn]

/-- Both the static and the dynamic downcast undo the upcast of a
genuine `Bar` object's base address. -/
theorem castAddr_down_up (k : CKind) (hk : k = .stat ∨ k = .dyn)
    (isBar : Nat → Bool) (off : Nat) {b : Nat}
    (hb : b ≠ 0) (hBar : isBar b = true) :
    castAddr k .foo .bar isBar off (upAddr off b) = b := by
  rcases hk with hk | hk <;> subst hk
  · simpa [castAddr] using downStatic_upAddr off hb
  · simpa [castAddr] using downDyn_upAddr isBar off hb hBar

/-! ## Scenario support: weak observers of fresh and released blocks -/

/-- Reading the freshly appended block of count one. -/
theorem getD_append_one (l : List Nat) : (l ++ [1]).getD l.length 0 = 1 := by
  rw [List.getD_append_right _ _ _ _ le_rfl]
  simp

/-- Reading an updated in-range entry. -/
theorem getD_set_of_lt (l : List Nat) (i v : Nat) (hi : i < l.length) :
    (l.set i v).getD i 0 = v := by
  rw [List.getD_eq_getElem _ _ (by simpa using hi)]
  exact List.getElem_set_self _

/-- A weak observer of a freshly allocated liveness block resolves to
the address it stored. -/
theorem ptrGetS_fresh (h : Heap) (a : Nat) :
    ptrGetS (h.alloc.1) ⟨SPtr.null, ⟨some h.alloc.2, a⟩⟩ = a := by
  simp [ptrGetS, WPtr.lock, Heap.aliveCB_alloc_self]

/-- A weak observer of a released fresh liveness block resolves to
null. -/
theorem ptrGetS_fresh_released (h : Heap) (a : Nat) :
    ptrGetS ((h.alloc.1).release h.alloc.2) ⟨SPtr.null, ⟨some h.alloc.2, a⟩⟩ = 0 := by
  simp [ptrGetS, WPtr.lock, Heap.aliveCB_alloc_release, SPtr.null]

/-- `ref<T>::get()` is the checked form of `ptr<T>::get()`. -/
theorem refGetS_eq_ptrGetS (h : Heap) (b : BorrowS) :
    refGetS h b = if ptrGetS h b ≠ 0 then .ok (ptrGetS h b)
                  else .error "accessing a null reference" := rfl

/-! ## The claims -/

/-- C10: in the fast build the header undefines and redefines
`CPL_ASSERT` to expand to nothing after the user-overridable default is
established (cpl.hpp lines 1368-1383), so every run-time check is a
no-op in fast mode even when the user defined a custom `CPL_ASSERT`
before including the header; the user's override (and the throwing
default) take effect only in the safe build. -/
theorem c10_fast_build_assert_is_noop :
    (∀ userDef : Option AssertBehavior, effectiveAssert .fast userDef = .noop) ∧
    effectiveAssert .safe (some .custom) = .custom ∧
    effectiveAssert .safe none = .throwLogicError := by
  refine ⟨fun u => ?_, rfl, rfl⟩
  cases u <;> rfl

/-- C9: in safe mode, applying any of the four cast operations to a
`ptr<U>` whose owner has been destroyed (its observed liveness block is
expired) signals no failure and yields a `ptr<T>` whose `get()` is
null: `cast_weak_ptr` re-locks the expired weak handle, obtaining the
null shared handle, and even `cast_static`'s safe-mode agreement check
passes because both casts of the null source address yield null. -/
theorem c9_cast_of_expired_ptr_is_null (h : Heap) (i a : Nat)
    (isBar : Nat → Bool) (off : Nat) (src dst : Ty)
    (hconv : ptrConvertible dst src = true)
    (hdead : h.aliveCB i = false) :
    castStaticPtrS src dst isBar off h ⟨SPtr.null, ⟨some i, a⟩⟩
      = some (.ok ⟨SPtr.null, ⟨none, 0⟩⟩) ∧
    castDynamicPtrS src dst isBar off h ⟨SPtr.null, ⟨some i, a⟩⟩
      = some ⟨SPtr.null, ⟨none, 0⟩⟩ ∧
    castReinterpretPtrS src dst isBar off h ⟨SPtr.null, ⟨some i, a⟩⟩
      = some ⟨SPtr.null, ⟨none, 0⟩⟩ ∧
    castConstPtrS src dst isBar off h ⟨SPtr.null, ⟨some i, a⟩⟩
      = some ⟨SPtr.null, ⟨none, 0⟩⟩ ∧
    ptrGetS h (⟨SPtr.null, ⟨none, 0⟩⟩ : BorrowS) = 0 := by
  have hlock : WPtr.lock h ⟨some i, a⟩ = SPtr.null := by
    simp [WPtr.lock, hdead]
  refine ⟨?_, ?_, ?_, ?_, rfl⟩ <;>
    simp [castStaticPtrS, castDynamicPtrS, castReinterpretPtrS, castConstPtrS, hconv,
      borrowCastCtorS, castWeakPtr, castSharedPtr, castAddr_zero, SPtr.toBool,
      SPtr.null, WPtr.ofShared, ptrGetS, hlock]

/-- C9 witness: a concrete expired pointer under every hypothesis of
`c9_cast_of_expired_ptr_is_null`. -/
theorem c9_cast_of_expired_ptr_is_null_witness :
    ptrConvertible .bar .foo = true ∧ (Heap.mk [0]).aliveCB 0 = false ∧
    (castStaticPtrS .foo .bar (fun _ => false) 1 ⟨[0]⟩ ⟨SPtr.null, ⟨some 0, 5⟩⟩
        = some (.ok ⟨SPtr.null, ⟨none, 0⟩⟩) ∧
      castDynamicPtrS .foo .bar (fun _ => false) 1 ⟨[0]⟩ ⟨SPtr.null, ⟨some 0, 5⟩⟩
        = some ⟨SPtr.null, ⟨none, 0⟩⟩ ∧
      castReinterpretPtrS .foo .bar (fun _ => false) 1 ⟨[0]⟩ ⟨SPtr.null, ⟨some 0, 5⟩⟩
        = some ⟨SPtr.null, ⟨none, 0⟩⟩ ∧
      castConstPtrS .foo .bar (fun _ => false) 1 ⟨[0]⟩ ⟨SPtr.null, ⟨some 0, 5⟩⟩
        = some ⟨SPtr.null, ⟨none, 0⟩⟩ ∧
      ptrGetS ⟨[0]⟩ (⟨SPtr.null, ⟨none, 0⟩⟩ : BorrowS) = 0) :=
  ⟨by decide, by decide,
    c9_cast_of_expired_ptr_is_null ⟨[0]⟩ 0 5 (fun _ => false) 1 .foo .bar
      (by decide) (by decide)⟩

/-- C6 (code-bug evaluation): in safe mode, constructing an `sref<Foo>`
from a default-constructed (null) `sptr<Foo>` completes without any
assertion — `sref::sref(const sptr<U>&)` (cpl.hpp lines 1751-1755)
contains no `CPL_ASSERT` — and yields a shared reference whose `get()`
returns null, while the repository's own tests
(`VERIFY_NULL_REF_CONSTRUCTION(sref, sptr, COPY)`) require this
construction to throw in the safe variant. -/
theorem c6_sref_from_null_sptr_is_unchecked :
    (mkSharedRaw Heap.empty 0).2.get = 0 ∧
    (srefOfSptr id (mkSharedRaw Heap.empty 0).1 (mkSharedRaw Heap.empty 0).2).2
      = ⟨some 0, 0⟩ ∧
    (srefOfSptr id (mkSharedRaw Heap.empty 0).1 (mkSharedRaw Heap.empty 0).2).2.get
      = 0 := by
  decide

/-- C2 (code-bug evaluation): in safe mode, the public sequence
`uref<Foo>{std::move(uptr<Foo>{})}` — a default (null) unique pointer
moved into a unique reference through `uref::uref(uptr<U>&&)` (cpl.hpp
lines 1870-1874) — completes without any assertion and produces a
`uref` whose `get()` returns null, while the repository's own tests
(`VERIFY_NULL_REF_CONSTRUCTION(uref, uptr, MOVE)`) require this
construction to throw in the safe variant. -/
theorem c2_uref_from_null_uptr_is_unchecked :
    (uniqueMoveS id (mkUniqueRawS Heap.empty 0).2).1
      = (⟨0, ⟨some 0, 0⟩⟩ : UniqueS) ∧
    (uniqueMoveS id (mkUniqueRawS Heap.empty 0).2).1.get = 0 := by
  decide

/-- C4 counterexample: in the safe build, `cast_static<Bar>` applied to
a `ptr<Foo>` that points at a `Foo` which is not part of any `Bar`
raises the assertion failure "static cast gave the wrong result"
(cpl.hpp lines 2257-2266 compare the dynamic and the static cast of the
source address), refuting "cast_static never raises an assertion
failure in the safe build". -/
theorem c4_counterexample_safe_cast_static_raises :
    castStaticPtrS .foo .bar (fun _ => false) 1 (mkIsS Heap.empty 5).1
        (borrowOfIsS id (mkIsS Heap.empty 5).2)
      = some (.error "static cast gave the wrong result") := by
  rfl

/-- C4 (amended): `cast_static` performs no run-time validation in the
fast build — it always returns the statically cast indirection — while
in the safe build it raises the assertion failure exactly when the
dynamic and the static cast of the source address disagree (shown for
the cited `ptr` and `sref` overloads; `cast_reinterpret` stays
unchecked in both builds as claimed). -/
theorem c4_amended_cast_static_checks_only_in_safe
    (src dst : Ty) (isBar : Nat → Bool) (off : Nat) (h : Heap)
    (p : BorrowS) (f : BorrowF) (s : SPtr)
    (hconv : ptrConvertible dst src = true) :
    castStaticPtrF src dst isBar off f
      = some (borrowCastCtorF .stat src dst isBar off f) ∧
    castStaticSrefF src dst isBar off h s
      = some (sharedCastCtor .stat src dst isBar off h s) ∧
    (castStaticPtrS src dst isBar off h p
        = some (.error "static cast gave the wrong result")
      ↔ castAddr .dyn src dst isBar off (ptrGetS h p)
          ≠ castAddr .stat src dst isBar off (ptrGetS h p)) ∧
    (castStaticSrefS src dst isBar off h s
        = some (.error "static cast gave the wrong result")
      ↔ castAddr .dyn src dst isBar off s.get
          ≠ castAddr .stat src dst isBar off s.get) := by
  refine ⟨by simp [castStaticPtrF, hconv], by simp [castStaticSrefF, hconv], ?_, ?_⟩
  · by_cases hd : castAddr .dyn src dst isBar off (ptrGetS h p)
        = castAddr .stat src dst isBar off (ptrGetS h p) <;>
      simp [castStaticPtrS, hconv, hd]
  · by_cases hd : castAddr .dyn src dst isBar off s.get
        = castAddr .stat src dst isBar off s.get <;>
      simp [castStaticSrefS, hconv, hd]

/-- C4 amended witness: the amended statement at a concrete input (a
`Foo` at address 5 that is not part of a `Bar`, layout offset 1). -/
theorem c4_amended_witness :
    ptrConvertible .bar .foo = true ∧
    (castStaticPtrF .foo .bar (fun _ => false) 1 ⟨5⟩
        = some (borrowCastCtorF .stat .foo .bar (fun _ => false) 1 ⟨5⟩) ∧
      castStaticSrefF .foo .bar (fun _ => false) 1 Heap.empty ⟨none, 5⟩
        = some (sharedCastCtor .stat .foo .bar (fun _ => false) 1 Heap.empty ⟨none, 5⟩) ∧
      (castStaticPtrS .foo .bar (fun _ => false) 1 Heap.empty ⟨SPtr.null, ⟨none, 5⟩⟩
          = some (.error "static cast gave the wrong result")
        ↔ castAddr .dyn .foo .bar (fun _ => false) 1
              (ptrGetS Heap.empty ⟨SPtr.null, ⟨none, 5⟩⟩)
            ≠ castAddr .stat .foo .bar (fun _ => false) 1
              (ptrGetS Heap.empty ⟨SPtr.null, ⟨none, 5⟩⟩)) ∧
      (castStaticSrefS .foo .bar (fun _ => false) 1 Heap.empty ⟨none, 5⟩
          = some (.error "static cast gave the wrong result")
        ↔ castAddr .dyn .foo .bar (fun _ => false) 1 (SPtr.get ⟨none, 5⟩)
            ≠ castAddr .stat .foo .bar (fun _ => false) 1 (SPtr.get ⟨none, 5⟩))) :=
  ⟨by decide,
    c4_amended_cast_static_checks_only_in_safe .foo .bar (fun _ => false) 1
      Heap.empty ⟨SPtr.null, ⟨none, 5⟩⟩ ⟨5⟩ ⟨none, 5⟩ (by decide)⟩

/-- C7 counterexample: after the owner (`is<Foo>` at address 7) has
been destroyed, constructing a `ref<Foo>` from a previously-borrowed
`ptr<Foo>` raises "constructing a null reference" already at
construction (cpl.hpp lines 2049-2054), refuting "constructing a
borrowing indirection (ref or ptr) whose owner's value has already been
destroyed is itself never an error in safe mode". -/
theorem c7_counterexample_ref_construction_raises :
    (refOfPtrS id
        (destroyIsS (mkIsS Heap.empty 7).1 (mkIsS Heap.empty 7).2)
        (borrowOfIsS id (mkIsS Heap.empty 7).2)).2
      = .error "constructing a null reference" := by
  rfl

/-- C7 (amended): dangling detection is deferred to the access point
for `ptr` only — copy-constructing a `ptr` from a dangling borrow is
never an error and yields a `ptr` resolving to null — while every
`ref` constructor asserts non-null, so constructing a `ref` from a
dangling source raises the failure already at construction, and a
`ref` access also raises. -/
theorem c7_amended_ptr_defers_ref_raises (h : Heap) (i a : Nat)
    (hdead : h.aliveCB i = false) :
    (borrowCopyS id h ⟨SPtr.null, ⟨some i, a⟩⟩).2
      = (⟨SPtr.null, ⟨none, 0⟩⟩ : BorrowS) ∧
    ptrGetS h (borrowCopyS id h ⟨SPtr.null, ⟨some i, a⟩⟩).2 = 0 ∧
    (refOfPtrS id h ⟨SPtr.null, ⟨some i, a⟩⟩).2
      = .error "constructing a null reference" ∧
    refGetS h ⟨SPtr.null, ⟨some i, a⟩⟩
      = .error "accessing a null reference" := by
  refine ⟨?_, ?_, ?_, ?_⟩ <;>
    simp [borrowCopyS, refOfPtrS, refCtorAssert, refGetS, ptrGetS, hdead,
      SPtr.toBool, SPtr.null, WPtr.ofShared, WPtr.lock]

/-- C7 amended witness: the amended statement at a concrete expired
owner. -/
theorem c7_amended_witness :
    (Heap.mk [0]).aliveCB 0 = false ∧
    ((borrowCopyS id ⟨[0]⟩ ⟨SPtr.null, ⟨some 0, 7⟩⟩).2
        = (⟨SPtr.null, ⟨none, 0⟩⟩ : BorrowS) ∧
      ptrGetS ⟨[0]⟩ (borrowCopyS id ⟨[0]⟩ ⟨SPtr.null, ⟨some 0, 7⟩⟩).2 = 0 ∧
      (refOfPtrS id ⟨[0]⟩ ⟨SPtr.null, ⟨some 0, 7⟩⟩).2
        = .error "constructing a null reference" ∧
      refGetS ⟨[0]⟩ ⟨SPtr.null, ⟨some 0, 7⟩⟩
        = .error "accessing a null reference") :=
  ⟨by decide, c7_amended_ptr_defers_ref_raises ⟨[0]⟩ 0 7 (by decide)⟩

/-- C3 counterexample: a `uptr<Foo>` owner (value at address 5) is
reset through the publicly inherited `std::unique_ptr::reset()` — which
v0.0.15 does not override, so the liveness handle `m_shared_ptr` is
left untouched (`uniqueResetS` returns only the new owner state and
changes neither the heap nor any borrow) — and the next access through
a previously-constructed borrow still succeeds with the stale address
instead of failing with a dangling-borrow violation: the owner is reset
(its `get()` is null) yet `ptr::get()` returns 5 and `ref::get()`
returns `ok 5`. -/
theorem c3_counterexample_reset_is_not_detected :
    (uniqueResetS (mkUniqueRawS Heap.empty 5).2).get = 0 ∧
    (uniqueResetS (mkUniqueRawS Heap.empty 5).2).sh
      = (mkUniqueRawS Heap.empty 5).2.sh ∧
    ptrGetS (mkUniqueRawS Heap.empty 5).1
      (borrowOfUniqueS id (mkUniqueRawS Heap.empty 5).2) = 5 ∧
    refGetS (mkUniqueRawS Heap.empty 5).1
      (borrowOfUniqueS id (mkUniqueRawS Heap.empty 5).2) = .ok 5 :=
  ⟨rfl, rfl, rfl, rfl⟩

/-- C3 (amended): for the owning instances of v0.0.15 (`is`, the
unique family, the shared family), while the owner is alive any `ref`
or `ptr` constructed from it resolves to the owner's (non-null)
address; after the owner is destroyed, a previously-constructed `ref`
fails its next access with the dangling-borrow assertion and a
previously-constructed `ptr` resolves to null; but after a unique
owner is merely reset through the inherited `reset()`, previously
constructed borrows are not invalidated — the auxiliary liveness
handle is left untouched — and their accesses still succeed with the
stale address. -/
theorem c3_amended_liveness (h : Heap) (a : Nat) (ha : a ≠ 0) :
    ((mkIsS h a).2.get = a ∧
      ptrGetS (mkIsS h a).1 (borrowOfIsS id (mkIsS h a).2) = a ∧
      refGetS (mkIsS h a).1 (borrowOfIsS id (mkIsS h a).2) = .ok a ∧
      ptrGetS (destroyIsS (mkIsS h a).1 (mkIsS h a).2)
        (borrowOfIsS id (mkIsS h a).2) = 0 ∧
      refGetS (destroyIsS (mkIsS h a).1 (mkIsS h a).2)
        (borrowOfIsS id (mkIsS h a).2) = .error "accessing a null reference") ∧
    ((mkUniqueRawS h a).2.get = a ∧
      ptrGetS (mkUniqueRawS h a).1 (borrowOfUniqueS id (mkUniqueRawS h a).2) = a ∧
      refGetS (mkUniqueRawS h a).1 (borrowOfUniqueS id (mkUniqueRawS h a).2) = .ok a ∧
      ptrGetS (destroyUniqueS (mkUniqueRawS h a).1 (mkUniqueRawS h a).2)
        (borrowOfUniqueS id (mkUniqueRawS h a).2) = 0 ∧
      refGetS (destroyUniqueS (mkUniqueRawS h a).1 (mkUniqueRawS h a).2)
        (borrowOfUniqueS id (mkUniqueRawS h a).2)
        = .error "accessing a null reference" ∧
      (uniqueResetS (mkUniqueRawS h a).2).sh = (mkUniqueRawS h a).2.sh ∧
      (uniqueResetS (mkUniqueRawS h a).2).get = 0) ∧
    ((mkSharedRaw h a).2.get = a ∧
      ptrGetS (mkSharedRaw h a).1 (borrowOfSharedS id (mkSharedRaw h a).2) = a ∧
      refGetS (mkSharedRaw h a).1 (borrowOfSharedS id (mkSharedRaw h a).2) = .ok a ∧
      ptrGetS (destroySharedS (mkSharedRaw h a).1 (mkSharedRaw h a).2)
        (borrowOfSharedS id (mkSharedRaw h a).2) = 0 ∧
      refGetS (destroySharedS (mkSharedRaw h a).1 (mkSharedRaw h a).2)
        (borrowOfSharedS id (mkSharedRaw h a).2)
        = .error "accessing a null reference") := by
  have halive := Heap.aliveCB_alloc_self h
  have hreleased := Heap.aliveCB_alloc_release h
  refine ⟨⟨rfl, ?_, ?_, ?_, ?_⟩, ⟨rfl, ?_, ?_, ?_, ?_, rfl, rfl⟩, ⟨rfl, ?_, ?_, ?_, ?_⟩⟩ <;>
    simp [mkIsS, mkUniqueRawS, mkSharedRaw, borrowOfIsS, borrowOfUniqueS,
      borrowOfSharedS, destroyIsS, destroyUniqueS, destroySharedS,
      ptrGetS, refGetS, WPtr.lock, SPtr.null, Heap.alloc] at * <;>
    simp [halive, hreleased, ha]

/-- C3 amended witness: the amended liveness statement at a concrete
owner address. -/
theorem c3_amended_liveness_witness :
    (5 : Nat) ≠ 0 ∧
    (((mkIsS Heap.empty 5).2.get = 5 ∧
      ptrGetS (mkIsS Heap.empty 5).1 (borrowOfIsS id (mkIsS Heap.empty 5).2) = 5 ∧
      refGetS (mkIsS Heap.empty 5).1 (borrowOfIsS id (mkIsS Heap.empty 5).2) = .ok 5 ∧
      ptrGetS (destroyIsS (mkIsS Heap.empty 5).1 (mkIsS Heap.empty 5).2)
        (borrowOfIsS id (mkIsS Heap.empty 5).2) = 0 ∧
      refGetS (destroyIsS (mkIsS Heap.empty 5).1 (mkIsS Heap.empty 5).2)
        (borrowOfIsS id (mkIsS Heap.empty 5).2) = .error "accessing a null reference") ∧
    ((mkUniqueRawS Heap.empty 5).2.get = 5 ∧
      ptrGetS (mkUniqueRawS Heap.empty 5).1
        (borrowOfUniqueS id (mkUniqueRawS Heap.empty 5).2) = 5 ∧
      refGetS (mkUniqueRawS Heap.empty 5).1
        (borrowOfUniqueS id (mkUniqueRawS Heap.empty 5).2) = .ok 5 ∧
      ptrGetS (destroyUniqueS (mkUniqueRawS Heap.empty 5).1 (mkUniqueRawS Heap.empty 5).2)
        (borrowOfUniqueS id (mkUniqueRawS Heap.empty 5).2) = 0 ∧
      refGetS (destroyUniqueS (mkUniqueRawS Heap.empty 5).1 (mkUniqueRawS Heap.empty 5).2)
        (borrowOfUniqueS id (mkUniqueRawS Heap.empty 5).2)
        = .error "accessing a null reference" ∧
      (uniqueResetS (mkUniqueRawS Heap.empty 5).2).sh = (mkUniqueRawS Heap.empty 5).2.sh ∧
      (uniqueResetS (mkUniqueRawS Heap.empty 5).2).get = 0) ∧
    ((mkSharedRaw Heap.empty 5).2.get = 5 ∧
      ptrGetS (mkSharedRaw Heap.empty 5).1
        (borrowOfSharedS id (mkSharedRaw Heap.empty 5).2) = 5 ∧
      refGetS (mkSharedRaw Heap.empty 5).1
        (borrowOfSharedS id (mkSharedRaw Heap.empty 5).2) = .ok 5 ∧
      ptrGetS (destroySharedS (mkSharedRaw Heap.empty 5).1 (mkSharedRaw Heap.empty 5).2)
        (borrowOfSharedS id (mkSharedRaw Heap.empty 5).2) = 0 ∧
      refGetS (destroySharedS (mkSharedRaw Heap.empty 5).1 (mkSharedRaw Heap.empty 5).2)
        (borrowOfSharedS id (mkSharedRaw Heap.empty 5).2)
        = .error "accessing a null reference")) :=
  ⟨by decide, c3_amended_liveness Heap.empty 5 (by decide)⟩

/-- C5 counterexample: a `uptr<Foo>` owner (value at address 5) is
moved into another unique handle; `uniqueMoveS` changes neither the
heap nor the borrow, so the access after the move is literally the
access shown — a previously-constructed borrow from the moved-from
source does NOT detect a dangling condition on its next access: the
`ptr` still resolves to 5 and the `ref` access returns `ok 5`, because
the transferred liveness block is kept alive by the destination. -/
theorem c5_counterexample_borrow_survives_move :
    (uniqueMoveS id (mkUniqueRawS Heap.empty 5).2).2 = (⟨0, SPtr.null⟩ : UniqueS) ∧
    ptrGetS (mkUniqueRawS Heap.empty 5).1
      (borrowOfUniqueS id (mkUniqueRawS Heap.empty 5).2) = 5 ∧
    refGetS (mkUniqueRawS Heap.empty 5).1
      (borrowOfUniqueS id (mkUniqueRawS Heap.empty 5).2) = .ok 5 :=
  ⟨rfl, rfl, rfl⟩

/-- C5 (amended): moving a unique-family handle transfers the auxiliary
liveness handle along with the primary handle and the moved-from source
becomes null/empty, as claimed; but a `ref`/`ptr` that had previously
borrowed from the source keeps resolving to the (still alive) value now
owned by the destination, and detects the dangling condition only once
the destination itself is destroyed. -/
theorem c5_amended_move_transfers_liveness (h : Heap) (a : Nat) (ha : a ≠ 0) :
    (uniqueMoveS id (mkUniqueRawS h a).2).1
      = (⟨a, (mkUniqueRawS h a).2.sh⟩ : UniqueS) ∧
    (uniqueMoveS id (mkUniqueRawS h a).2).2 = (⟨0, SPtr.null⟩ : UniqueS) ∧
    ptrGetS (mkUniqueRawS h a).1 (borrowOfUniqueS id (mkUniqueRawS h a).2) = a ∧
    refGetS (mkUniqueRawS h a).1 (borrowOfUniqueS id (mkUniqueRawS h a).2) = .ok a ∧
    ptrGetS (destroyUniqueS (mkUniqueRawS h a).1 (uniqueMoveS id (mkUniqueRawS h a).2).1)
      (borrowOfUniqueS id (mkUniqueRawS h a).2) = 0 ∧
    refGetS (destroyUniqueS (mkUniqueRawS h a).1 (uniqueMoveS id (mkUniqueRawS h a).2).1)
      (borrowOfUniqueS id (mkUniqueRawS h a).2)
      = .error "accessing a null reference" := by
  have halive := Heap.aliveCB_alloc_self h
  have hreleased := Heap.aliveCB_alloc_release h
  refine ⟨rfl, rfl, ?_, ?_, ?_, ?_⟩ <;>
    simp [mkUniqueRawS, uniqueMoveS, borrowOfUniqueS, destroyUniqueS,
      ptrGetS, refGetS, WPtr.lock, SPtr.null, Heap.alloc] at * <;>
    simp [halive, hreleased, ha]

/-- C5 amended witness: the amended move statement at a concrete owner
address. -/
theorem c5_amended_move_witness :
    (5 : Nat) ≠ 0 ∧
    ((uniqueMoveS id (mkUniqueRawS Heap.empty 5).2).1
        = (⟨5, (mkUniqueRawS Heap.empty 5).2.sh⟩ : UniqueS) ∧
      (uniqueMoveS id (mkUniqueRawS Heap.empty 5).2).2 = (⟨0, SPtr.null⟩ : UniqueS) ∧
      ptrGetS (mkUniqueRawS Heap.empty 5).1
        (borrowOfUniqueS id (mkUniqueRawS Heap.empty 5).2) = 5 ∧
      refGetS (mkUniqueRawS Heap.empty 5).1
        (borrowOfUniqueS id (mkUniqueRawS Heap.empty 5).2) = .ok 5 ∧
      ptrGetS (destroyUniqueS (mkUniqueRawS Heap.empty 5).1
          (uniqueMoveS id (mkUniqueRawS Heap.empty 5).2).1)
        (borrowOfUniqueS id (mkUniqueRawS Heap.empty 5).2) = 0 ∧
      refGetS (destroyUniqueS (mkUniqueRawS Heap.empty 5).1
          (uniqueMoveS id (mkUniqueRawS Heap.empty 5).2).1)
        (borrowOfUniqueS id (mkUniqueRawS Heap.empty 5).2)
        = .error "accessing a null reference") :=
  ⟨by decide, c5_amended_move_transfers_liveness Heap.empty 5 (by decide)⟩

/-- C8 counterexample: the first step of the claimed round trip,
`cast_static<Foo>` applied to an indirection to the derived class
`Bar`, does not compile: every cast overload is guarded by
`std::enable_if<std::is_convertible<T*, U*>>` with `T` the destination,
which rejects upcasts (`Foo*` does not convert to `Bar*`), shown here
at a concrete live `sref<Bar>`/`uref<Bar>`/`ptr<Bar>` — so
`cast_static<Derived>(cast_static<Base>(x))` yields no indirection at
all, let alone one resolving to `x`'s address. -/
theorem c8_counterexample_upcast_cast_static_rejected :
    castStaticSrefS .bar .foo (fun a => decide (a = 5)) 1 ⟨[1]⟩ ⟨some 0, 5⟩ = none ∧
    castStaticUrefS .bar .foo (fun a => decide (a = 5)) 1 ⟨5, ⟨some 0, 5⟩⟩ = none ∧
    castStaticPtrS .bar .foo (fun a => decide (a = 5)) 1 ⟨[1]⟩
      ⟨SPtr.null, ⟨some 0, 5⟩⟩ = none :=
  ⟨rfl, rfl, rfl⟩

/-- C8 (amended): for every indirection family in
{sref, sptr, uref, uptr, ref, ptr}, converting an indirection to the
derived `Bar` implicitly to the base `Foo` (the converting
constructor — the direction `cast_static` itself rejects at compile
time) and then casting back to `Bar` with `cast_static` (or
`cast_dynamic`) yields an indirection whose resolved address equals
the original's resolved address, in the safe build and in the fast
build (the shared family's `cast_dynamic` path, `castOtherSref` /
`castOtherSptr`, is the same code in both builds). -/
theorem c8_amended_round_trip (h : Heap) (j i b off : Nat) (sh : SPtr)
    (isBar : Nat → Bool) (hb : b ≠ 0) (hBar : isBar b = true)
    (halive : h.aliveCB i = true) :
    -- safe build, shared family
    (srefCastResolved (castStaticSrefS .foo .bar isBar off
        (sharedCopyConvert (upAddr off) h ⟨some j, b⟩).1
        (sharedCopyConvert (upAddr off) h ⟨some j, b⟩).2) = some (.ok b) ∧
      srefCastResolved (castStaticSptrS .foo .bar isBar off
        (sharedCopyConvert (upAddr off) h ⟨some j, b⟩).1
        (sharedCopyConvert (upAddr off) h ⟨some j, b⟩).2) = some (.ok b) ∧
      sharedCastResolved (castOtherSref .dyn .foo .bar isBar off
        (sharedCopyConvert (upAddr off) h ⟨some j, b⟩).1
        (sharedCopyConvert (upAddr off) h ⟨some j, b⟩).2) = some b ∧
      sharedCastResolved (castOtherSptr .dyn .foo .bar isBar off
        (sharedCopyConvert (upAddr off) h ⟨some j, b⟩).1
        (sharedCopyConvert (upAddr off) h ⟨some j, b⟩).2) = some b) ∧
    -- safe build, unique family
    (uniqueCastResolved (castStaticUrefS .foo .bar isBar off
        (uniqueMoveS (upAddr off) ⟨b, sh⟩).1) = some (.ok b) ∧
      uniqueCastResolved (castStaticUptrS .foo .bar isBar off
        (uniqueMoveS (upAddr off) ⟨b, sh⟩).1) = some (.ok b) ∧
      uniqueCastResolvedUnchecked (castOtherUrefS .dyn .foo .bar isBar off
        (uniqueMoveS (upAddr off) ⟨b, sh⟩).1) = some b ∧
      uniqueCastResolvedUnchecked (castOtherUptrS .dyn .foo .bar isBar off
        (uniqueMoveS (upAddr off) ⟨b, sh⟩).1) = some b) ∧
    -- safe build, borrowing family
    (ptrCastResolvedChecked h (castStaticPtrS .foo .bar isBar off h
        (borrowCopyS (upAddr off) h ⟨SPtr.null, ⟨some i, b⟩⟩).2) = some (.ok b) ∧
      ptrCastResolved h (castDynamicPtrS .foo .bar isBar off h
        (borrowCopyS (upAddr off) h ⟨SPtr.null, ⟨some i, b⟩⟩).2) = some b ∧
      (refOfRefS (upAddr off) h ⟨SPtr.null, ⟨some i, b⟩⟩).2
        = .ok (borrowCopyS (upAddr off) h ⟨SPtr.null, ⟨some i, b⟩⟩).2 ∧
      refCastResolved h (castStaticRefS .foo .bar isBar off h
        (borrowCopyS (upAddr off) h ⟨SPtr.null, ⟨some i, b⟩⟩).2) = some (.ok b) ∧
      refCastResolved h (castDynamicRefS .foo .bar isBar off h
        (borrowCopyS (upAddr off) h ⟨SPtr.null, ⟨some i, b⟩⟩).2) = some (.ok b)) ∧
    -- fast build
    (sharedCastResolved (castStaticSrefF .foo .bar isBar off
        (sharedCopyConvert (upAddr off) h ⟨some j, b⟩).1
        (sharedCopyConvert (upAddr off) h ⟨some j, b⟩).2) = some b ∧
      sharedCastResolved (castStaticSptrF .foo .bar isBar off
        (sharedCopyConvert (upAddr off) h ⟨some j, b⟩).1
        (sharedCopyConvert (upAddr off) h ⟨some j, b⟩).2) = some b ∧
      uniqueCastResolvedF (castStaticUrefF .foo .bar isBar off
        (uniqueMoveF (upAddr off) ⟨b⟩).1) = some b ∧
      uniqueCastResolvedF (castStaticUptrF .foo .bar isBar off
        (uniqueMoveF (upAddr off) ⟨b⟩).1) = some b ∧
      uniqueCastResolvedF (castOtherUrefF .dyn .foo .bar isBar off
        (uniqueMoveF (upAddr off) ⟨b⟩).1) = some b ∧
      uniqueCastResolvedF (castOtherUptrF .dyn .foo .bar isBar off
        (uniqueMoveF (upAddr off) ⟨b⟩).1) = some b ∧
      borrowCastResolvedF (castStaticPtrF .foo .bar isBar off
        (borrowCopyF (upAddr off) ⟨b⟩)) = some b ∧
      borrowCastResolvedF (castDynamicPtrF .foo .bar isBar off
        (borrowCopyF (upAddr off) ⟨b⟩)) = some b ∧
      borrowCastResolvedF (castStaticRefF .foo .bar isBar off
        (borrowCopyF (upAddr off) ⟨b⟩)) = some b ∧
      borrowCastResolvedF (castDynamicRefF .foo .bar isBar off
        (borrowCopyF (upAddr off) ⟨b⟩)) = some b) := by
  have hne : upAddr off b ≠ 0 := upAddr_ne_zero off hb
  have hstat : castAddr .stat .foo .bar isBar off (upAddr off b) = b :=
    castAddr_down_up _ (Or.inl rfl) _ _ hb hBar
  have hdyn : castAddr .dyn .foo .bar isBar off (upAddr off b) = b :=
    castAddr_down_up _ (Or.inr rfl) _ _ hb hBar
  refine ⟨⟨?_, ?_, ?_, ?_⟩, ⟨?_, ?_, ?_, ?_⟩, ⟨?_, ?_, ?_, ?_, ?_⟩,
    ⟨?_, ?_, ?_, ?_, ?_, ?_, ?_, ?_, ?_, ?_⟩⟩ <;>
    simp [castStaticSrefS, castStaticSptrS, castOtherSref, castOtherSptr,
      castStaticSrefF, castStaticSptrF, castStaticUrefS, castStaticUptrS,
      castOtherUrefS, castOtherUptrS, castStaticUrefF, castStaticUptrF,
      castOtherUrefF, castOtherUptrF, castStaticPtrS, castDynamicPtrS,
      castStaticPtrF, castDynamicPtrF, castStaticRefS, castDynamicRefS,
      castStaticRefF, castDynamicRefF, refOfRefS, refCastCtorS, refCtorAssert,
      borrowCastCtorS, borrowCastCtorF, borrowCopyS, borrowCopyF,
      sharedCopyConvert, sharedCastCtor, castSharedPtr, castWeakPtr,
      uniqueMoveS, uniqueMoveF, uniqueCastCtorS, ptrConvertible,
      srefCastResolved, sharedCastResolved, uniqueCastResolved,
      uniqueCastResolvedUnchecked, uniqueCastResolvedF, ptrCastResolvedChecked,
      ptrCastResolved, refCastResolved, borrowCastResolvedF, borrowGetF,
      SPtr.get, UniqueS.get, UniqueF.get, SPtr.toBool, SPtr.null,
      WPtr.ofShared, WPtr.lock, ptrGetS, refGetS, Except.map, Except.bind,
      castAddr_zero, halive, hne, hstat, hdyn] <;>
    simp [bind, Except.bind, hb, hstat, hdyn, halive]

/-- C8 amended witness: the round trip at a concrete live `Bar` object
(base address 5, layout offset 1). -/
theorem c8_amended_round_trip_witness :
    ((5 : Nat) ≠ 0 ∧ (fun a => decide (a = 5)) 5 = true ∧
      (Heap.mk [1]).aliveCB 0 = true) ∧
    (
    -- safe build, shared family
    (srefCastResolved (castStaticSrefS .foo .bar (fun a => decide (a = 5)) 1
        (sharedCopyConvert (upAddr 1) ⟨[1]⟩ ⟨some 0, 5⟩).1
        (sharedCopyConvert (upAddr 1) ⟨[1]⟩ ⟨some 0, 5⟩).2) = some (.ok 5) ∧
      srefCastResolved (castStaticSptrS .foo .bar (fun a => decide (a = 5)) 1
        (sharedCopyConvert (upAddr 1) ⟨[1]⟩ ⟨some 0, 5⟩).1
        (sharedCopyConvert (upAddr 1) ⟨[1]⟩ ⟨some 0, 5⟩).2) = some (.ok 5) ∧
      sharedCastResolved (castOtherSref .dyn .foo .bar (fun a => decide (a = 5)) 1
        (sharedCopyConvert (upAddr 1) ⟨[1]⟩ ⟨some 0, 5⟩).1
        (sharedCopyConvert (upAddr 1) ⟨[1]⟩ ⟨some 0, 5⟩).2) = some 5 ∧
      sharedCastResolved (castOtherSptr .dyn .foo .bar (fun a => decide (a = 5)) 1
        (sharedCopyConvert (upAddr 1) ⟨[1]⟩ ⟨some 0, 5⟩).1
        (sharedCopyConvert (upAddr 1) ⟨[1]⟩ ⟨some 0, 5⟩).2) = some 5) ∧
    -- safe build, unique family
    (uniqueCastResolved (castStaticUrefS .foo .bar (fun a => decide (a = 5)) 1
        (uniqueMoveS (upAddr 1) ⟨5, ⟨some 0, 5⟩⟩).1) = some (.ok 5) ∧
      uniqueCastResolved (castStaticUptrS .foo .bar (fun a => decide (a = 5)) 1
        (uniqueMoveS (upAddr 1) ⟨5, ⟨some 0, 5⟩⟩).1) = some (.ok 5) ∧
      uniqueCastResolvedUnchecked (castOtherUrefS .dyn .foo .bar (fun a => decide (a = 5)) 1
        (uniqueMoveS (upAddr 1) ⟨5, ⟨some 0, 5⟩⟩).1) = some 5 ∧
      uniqueCastResolvedUnchecked (castOtherUptrS .dyn .foo .bar (fun a => decide (a = 5)) 1
        (uniqueMoveS (upAddr 1) ⟨5, ⟨some 0, 5⟩⟩).1) = some 5) ∧
    -- safe build, borrowing family
    (ptrCastResolvedChecked ⟨[1]⟩ (castStaticPtrS .foo .bar (fun a => decide (a = 5)) 1 ⟨[1]⟩
        (borrowCopyS (upAddr 1) ⟨[1]⟩ ⟨SPtr.null, ⟨some 0, 5⟩⟩).2) = some (.ok 5) ∧
      ptrCastResolved ⟨[1]⟩ (castDynamicPtrS .foo .bar (fun a => decide (a = 5)) 1 ⟨[1]⟩
        (borrowCopyS (upAddr 1) ⟨[1]⟩ ⟨SPtr.null, ⟨some 0, 5⟩⟩).2) = some 5 ∧
      (refOfRefS (upAddr 1) ⟨[1]⟩ ⟨SPtr.null, ⟨some 0, 5⟩⟩).2
        = .ok (borrowCopyS (upAddr 1) ⟨[1]⟩ ⟨SPtr.null, ⟨some 0, 5⟩⟩).2 ∧
      refCastResolved ⟨[1]⟩ (castStaticRefS .foo .bar (fun a => decide (a = 5)) 1 ⟨[1]⟩
        (borrowCopyS (upAddr 1) ⟨[1]⟩ ⟨SPtr.null, ⟨some 0, 5⟩⟩).2) = some (.ok 5) ∧
      refCastResolved ⟨[1]⟩ (castDynamicRefS .foo .bar (fun a => decide (a = 5)) 1 ⟨[1]⟩
        (borrowCopyS (upAddr 1) ⟨[1]⟩ ⟨SPtr.null, ⟨some 0, 5⟩⟩).2) = some (.ok 5)) ∧
    -- fast build
    (sharedCastResolved (castStaticSrefF .foo .bar (fun a => decide (a = 5)) 1
        (sharedCopyConvert (upAddr 1) ⟨[1]⟩ ⟨some 0, 5⟩).1
        (sharedCopyConvert (upAddr 1) ⟨[1]⟩ ⟨some 0, 5⟩).2) = some 5 ∧
      sharedCastResolved (castStaticSptrF .foo .bar (fun a => decide (a = 5)) 1
        (sharedCopyConvert (upAddr 1) ⟨[1]⟩ ⟨some 0, 5⟩).1
        (sharedCopyConvert (upAddr 1) ⟨[1]⟩ ⟨some 0, 5⟩).2) = some 5 ∧
      uniqueCastResolvedF (castStaticUrefF .foo .bar (fun a => decide (a = 5)) 1
        (uniqueMoveF (upAddr 1) ⟨5⟩).1) = some 5 ∧
      uniqueCastResolvedF (castStaticUptrF .foo .bar (fun a => decide (a = 5)) 1
        (uniqueMoveF (upAddr 1) ⟨5⟩).1) = some 5 ∧
      uniqueCastResolvedF (castOtherUrefF .dyn .foo .bar (fun a => decide (a = 5)) 1
        (uniqueMoveF (upAddr 1) ⟨5⟩).1) = some 5 ∧
      uniqueCastResolvedF (castOtherUptrF .dyn .foo .bar (fun a => decide (a = 5)) 1
        (uniqueMoveF (upAddr 1) ⟨5⟩).1) = some 5 ∧
      borrowCastResolvedF (castStaticPtrF .foo .bar (fun a => decide (a = 5)) 1
        (borrowCopyF (upAddr 1) ⟨5⟩)) = some 5 ∧
      borrowCastResolvedF (castDynamicPtrF .foo .bar (fun a => decide (a = 5)) 1
        (borrowCopyF (upAddr 1) ⟨5⟩)) = some 5 ∧
      borrowCastResolvedF (castStaticRefF .foo .bar (fun a => decide (a = 5)) 1
        (borrowCopyF (upAddr 1) ⟨5⟩)) = some 5 ∧
      borrowCastResolvedF (castDynamicRefF .foo .bar (fun a => decide (a = 5)) 1
        (borrowCopyF (upAddr 1) ⟨5⟩)) = some 5)) :=
  ⟨⟨by decide, by decide, by decide⟩,
    c8_amended_round_trip ⟨[1]⟩ 0 0 5 1 ⟨some 0, 5⟩ (fun a => decide (a = 5))
      (by decide) (by decide) (by decide)⟩

/-- C1: the public interface provides the nine indirection types in
both builds, each parameterized by the pointed-to type, and the
pointed-to type's subtype relationships propagate: an indirection to
the derived `Bar` converts to an indirection to its base `Foo`, the
converted indirection resolving to the `Foo` base subobject of the
same object.  Shown per family in the safe build (`is`, `opt`, the
unique family with `uptr`'s null state, the shared family with
`sptr`'s null state, `wptr`, `ref`, `ptr`) and in the fast build
(where the shared family and `wptr` compile to the very same
`std::shared_ptr`/`std::weak_ptr` representation, so the safe-build
conjuncts cover both).  `opt` and `wptr` are modelled from the spec,
their definitions being absent from the header snapshot. -/
theorem c1_nine_types_with_upcasts (h : Heap) (a off : Nat) (ha : a ≠ 0) :
    -- safe build
    ((mkIsS h a).2.get = a ∧
      ptrGetS (mkIsS h a).1 (borrowOfIsS (upAddr off) (mkIsS h a).2)
        = upAddr off a ∧
      ptrGetS (mkOptS h a).1 (borrowOfOptS (upAddr off) (mkOptS h a).2)
        = upAddr off a ∧
      (uniqueMoveS (upAddr off) (mkUniqueRawS h a).2).1.get = upAddr off a ∧
      (mkUniqueRawS h 0).2.get = 0 ∧
      (mkSharedRaw h a).2.get = a ∧
      (sharedCopyConvert (upAddr off) (mkSharedRaw h a).1 (mkSharedRaw h a).2).2.get
        = upAddr off a ∧
      (mkSharedRaw h 0).2.get = 0 ∧
      ((mkWptr (upAddr off) (mkSharedRaw h a).2).lock (mkSharedRaw h a).1).2.get
        = upAddr off a ∧
      refGetS (mkIsS h a).1 (refOfIsS (upAddr off) (mkIsS h a).2)
        = .ok (upAddr off a) ∧
      (refOfRefS (upAddr off) (mkIsS h a).1 (borrowOfIsS id (mkIsS h a).2)).2
        = .ok ⟨SPtr.null, ⟨some h.blocks.length, upAddr off a⟩⟩ ∧
      ptrGetS (mkIsS h a).1
        (borrowCopyS (upAddr off) (mkIsS h a).1 (borrowOfIsS id (mkIsS h a).2)).2
        = upAddr off a) ∧
    -- fast build
    (IsF.get ⟨a⟩ = a ∧
      borrowGetF (borrowOfOwnerF (upAddr off) (IsF.get ⟨a⟩)) = upAddr off a ∧
      borrowGetF (borrowOfOwnerF (upAddr off) (OptF.mk a true).addr)
        = upAddr off a ∧
      (uniqueMoveF (upAddr off) ⟨a⟩).1.get = upAddr off a ∧
      UniqueF.get ⟨0⟩ = 0 ∧
      borrowGetF (borrowCopyF (upAddr off) ⟨a⟩) = upAddr off a) := by
  have halive : (Heap.mk (h.blocks ++ [1])).aliveCB h.blocks.length = true :=
    Heap.aliveCB_alloc_self h
  refine ⟨⟨rfl, ?_, ?_, rfl, rfl, rfl, rfl, rfl, ?_, ?_, ?_, ?_⟩,
    rfl, rfl, rfl, rfl, rfl, rfl⟩ <;>
    simp [mkIsS, mkOptS, mkSharedRaw, mkUniqueRawS, borrowOfIsS, borrowOfOptS,
      refOfIsS, refOfRefS, refCtorAssert, borrowCopyS, mkWptr, WptrT.lock,
      ptrGetS, refGetS, WPtr.lock, WPtr.ofShared, SPtr.null, SPtr.toBool,
      SPtr.get, Heap.alloc, halive] <;>
    simp [upAddr, ha]

/-- C1 witness: the nine-type statement at a concrete `Bar` object
(address 5, layout offset 1). -/
theorem c1_nine_types_with_upcasts_witness :
    (5 : Nat) ≠ 0 ∧
    (((mkIsS Heap.empty 5).2.get = 5 ∧
      ptrGetS (mkIsS Heap.empty 5).1 (borrowOfIsS (upAddr 1) (mkIsS Heap.empty 5).2)
        = upAddr 1 5 ∧
      ptrGetS (mkOptS Heap.empty 5).1 (borrowOfOptS (upAddr 1) (mkOptS Heap.empty 5).2)
        = upAddr 1 5 ∧
      (uniqueMoveS (upAddr 1) (mkUniqueRawS Heap.empty 5).2).1.get = upAddr 1 5 ∧
      (mkUniqueRawS Heap.empty 0).2.get = 0 ∧
      (mkSharedRaw Heap.empty 5).2.get = 5 ∧
      (sharedCopyConvert (upAddr 1) (mkSharedRaw Heap.empty 5).1
          (mkSharedRaw Heap.empty 5).2).2.get = upAddr 1 5 ∧
      (mkSharedRaw Heap.empty 0).2.get = 0 ∧
      ((mkWptr (upAddr 1) (mkSharedRaw Heap.empty 5).2).lock
          (mkSharedRaw Heap.empty 5).1).2.get = upAddr 1 5 ∧
      refGetS (mkIsS Heap.empty 5).1 (refOfIsS (upAddr 1) (mkIsS Heap.empty 5).2)
        = .ok (upAddr 1 5) ∧
      (refOfRefS (upAddr 1) (mkIsS Heap.empty 5).1
          (borrowOfIsS id (mkIsS Heap.empty 5).2)).2
        = .ok ⟨SPtr.null, ⟨some Heap.empty.blocks.length, upAddr 1 5⟩⟩ ∧
      ptrGetS (mkIsS Heap.empty 5).1
        (borrowCopyS (upAddr 1) (mkIsS Heap.empty 5).1
          (borrowOfIsS id (mkIsS Heap.empty 5).2)).2 = upAddr 1 5) ∧
    (IsF.get ⟨5⟩ = 5 ∧
      borrowGetF (borrowOfOwnerF (upAddr 1) (IsF.get ⟨5⟩)) = upAddr 1 5 ∧
      borrowGetF (borrowOfOwnerF (upAddr 1) (OptF.mk 5 true).addr) = upAddr 1 5 ∧
      (uniqueMoveF (upAddr 1) ⟨5⟩).1.get = upAddr 1 5 ∧
      UniqueF.get ⟨0⟩ = 0 ∧
      borrowGetF (borrowCopyF (upAddr 1) ⟨5⟩) = upAddr 1 5)) :=
  ⟨by decide, c1_nine_types_with_upcasts Heap.empty 5 1 (by decide)⟩

end Cpl
